import Mathlib

/-!
Electrochemical type definitions (`electrochemicalTypes.h`)

A shallow embedding of the public electrochemical types of the strip reader:
the enumerations (with the C rule that numbers their enumerators), the
sample-type bitfield constants, the contact structure, and the classification
layer that the specification builds on them.
-/

namespace Lumira

/-! ## C enumerations -/

/-- The C rule that numbers the enumerators of an `enum` declaration: an
enumerator with an initialiser takes that value, one without takes the value of
the previous enumerator plus one, and the first one takes the running value
`next` (0 at the head of a declaration). -/
def enumNumber {α : Type} : Nat → List (α × Option Nat) → List (α × Nat)
  | _, [] => []
  | _, (a, some v) :: rest => (a, v) :: enumNumber (v + 1) rest
  | next, (a, none) :: rest => (a, next) :: enumNumber (next + 1) rest

/-- The value of enumerator `a` in the declaration `decl` (0 when `a` is not
declared, which no enumeration below does). -/
def enumValue {α : Type} [DecidableEq α] (decl : List (α × Option Nat)) (a : α) : Nat :=
  match (enumNumber 0 decl).lookup a with
  | some v => v
  | none => 0

/-- The values of the enumerators of a declaration, in declaration order. -/
def enumValues {α : Type} (decl : List (α × Option Nat)) : List Nat :=
  (enumNumber 0 decl).map Prod.snd

/-- The number of consecutive agreeing samples that registers a change:
`#define ECHEM_NUM_SAMPLES_TO_REGISTER_CHANGE (5u)`. -/
def ECHEM_NUM_SAMPLES_TO_REGISTER_CHANGE : Nat := 5

/-- The smallest range the C standard gives `unsigned int`: 16 bits. -/
def UINT_MIN_WIDTH : Nat := 16

/-- Defined strip sample types (`enum ElectrochemicalSampleTypes_tag`). -/
inductive ElectrochemicalSampleTypes_t
  | SAMPLE_TYPE_FINGER_STICK
  | SAMPLE_TYPE_VENUOUS_BLOOD
  | SAMPLE_TYPE_PLASMA
  | SAMPLE_TYPE_SERUM
  | SAMPLE_TYPE_CONTROL_SOLUTION
  | SAMPLE_TYPE_COUNT
  deriving DecidableEq, Repr

/-- The declaration of `ElectrochemicalSampleTypes_t`: only the first
enumerator has an initialiser. -/
def ElectrochemicalSampleTypes_tag : List (ElectrochemicalSampleTypes_t × Option Nat) :=
  [ (.SAMPLE_TYPE_FINGER_STICK, some 0),
    (.SAMPLE_TYPE_VENUOUS_BLOOD, none),
    (.SAMPLE_TYPE_PLASMA, none),
    (.SAMPLE_TYPE_SERUM, none),
    (.SAMPLE_TYPE_CONTROL_SOLUTION, none),
    (.SAMPLE_TYPE_COUNT, none) ]

/-- The integer value of a sample-type enumerator. -/
def ElectrochemicalSampleTypes_t.val (t : ElectrochemicalSampleTypes_t) : Nat :=
  enumValue ElectrochemicalSampleTypes_tag t

/-- The value of the enumerator `SAMPLE_TYPE_COUNT`, used as an array size. -/
def SAMPLE_TYPE_COUNT : Nat := ElectrochemicalSampleTypes_t.SAMPLE_TYPE_COUNT.val

/-- Electrochemical mode types (`enum ElectrochemicalMode_tag`). -/
inductive eElectrochemicalMode
  | EC_MODE_MANUAL
  | EC_MODE_FLUID_DETECT
  | EC_MODE_POTENTIOSTAT
  | EC_MODE_SELFTEST
  | EC_MODE_HCT
  | EC_MODE_COUNT
  deriving DecidableEq, Repr

/-- The declaration of `eElectrochemicalMode`. -/
def ElectrochemicalMode_tag : List (eElectrochemicalMode × Option Nat) :=
  [ (.EC_MODE_MANUAL, some 0),
    (.EC_MODE_FLUID_DETECT, some 1),
    (.EC_MODE_POTENTIOSTAT, some 2),
    (.EC_MODE_SELFTEST, some 3),
    (.EC_MODE_HCT, some 4),
    (.EC_MODE_COUNT, none) ]

/-- The integer value of a mode enumerator. -/
def eElectrochemicalMode.val (m : eElectrochemicalMode) : Nat :=
  enumValue ElectrochemicalMode_tag m

/-- Potential fluid positions in an electrochemical channel
(`enum ElectrochemicalChannelPos_tag`). -/
inductive eElectrochemicalChannelPos
  | EC_CHAN_POS_A
  | EC_CHAN_POS_B
  | EC_CHAN_POS_C
  | EC_CHAN_POS_D
  | EC_CHAN_POS_E
  | EC_CHAN_POS_F
  | EC_CHAN_POS_G
  | EC_CHAN_POS_H
  | EC_CHAN_POS_I
  | EC_CHAN_POS_J
  | EC_CHAN_POS_K
  | EC_CHAN_POS_L
  | EC_CHAN_POS_COUNT
  | EC_CHAN_POS_NONE
  deriving DecidableEq, Repr

/-- The declaration of `eElectrochemicalChannelPos`: A to L are initialised
0 to 11, `EC_CHAN_POS_COUNT` has no initialiser, `EC_CHAN_POS_NONE` is 255. -/
def ElectrochemicalChannelPos_tag : List (eElectrochemicalChannelPos × Option Nat) :=
  [ (.EC_CHAN_POS_A, some 0),
    (.EC_CHAN_POS_B, some 1),
    (.EC_CHAN_POS_C, some 2),
    (.EC_CHAN_POS_D, some 3),
    (.EC_CHAN_POS_E, some 4),
    (.EC_CHAN_POS_F, some 5),
    (.EC_CHAN_POS_G, some 6),
    (.EC_CHAN_POS_H, some 7),
    (.EC_CHAN_POS_I, some 8),
    (.EC_CHAN_POS_J, some 9),
    (.EC_CHAN_POS_K, some 10),
    (.EC_CHAN_POS_L, some 11),
    (.EC_CHAN_POS_COUNT, none),
    (.EC_CHAN_POS_NONE, some 255) ]

/-- The integer value of a position enumerator. -/
def eElectrochemicalChannelPos.val (p : eElectrochemicalChannelPos) : Nat :=
  enumValue ElectrochemicalChannelPos_tag p

/-- The real positions of a channel, `EC_CHAN_POS_A` to `EC_CHAN_POS_L`: the
enumerators declared before `EC_CHAN_POS_COUNT`. -/
def realPositions : List eElectrochemicalChannelPos :=
  (ElectrochemicalChannelPos_tag.map Prod.fst).takeWhile
    (fun p => decide (p ≠ eElectrochemicalChannelPos.EC_CHAN_POS_COUNT))

/-- The strip channels (`enum ElectrochemicalChannel_tag`). -/
inductive eElectrochemicalChannel
  | EC_STRIP_CHAN_1
  | EC_STRIP_CHAN_2
  | EC_STRIP_CHAN_3
  | EC_STRIP_CHAN_4
  | EC_STRIP_CHAN_COUNT
  deriving DecidableEq, Repr

/-- The declaration of `eElectrochemicalChannel`. -/
def ElectrochemicalChannel_tag : List (eElectrochemicalChannel × Option Nat) :=
  [ (.EC_STRIP_CHAN_1, some 0),
    (.EC_STRIP_CHAN_2, some 1),
    (.EC_STRIP_CHAN_3, some 2),
    (.EC_STRIP_CHAN_4, some 3),
    (.EC_STRIP_CHAN_COUNT, none) ]

/-- The integer value of a channel enumerator. -/
def eElectrochemicalChannel.val (c : eElectrochemicalChannel) : Nat :=
  enumValue ElectrochemicalChannel_tag c

/-- The value of the enumerator `EC_STRIP_CHAN_COUNT`, used as an array size. -/
def EC_STRIP_CHAN_COUNT : Nat := eElectrochemicalChannel.EC_STRIP_CHAN_COUNT.val

/-- The strip insertion state (`enum StripDetectState_tag`). -/
inductive StripDetectState_t
  | EC_STRIP_DETECT_STATE_INVALID
  | EC_STRIP_DETECT_STATE_STRIP_NOT_INSERTED
  | EC_STRIP_DETECT_STATE_STRIP_INSERTED
  | EC_STRIP_DETECT_STATE_COUNT
  deriving DecidableEq, Repr

/-- The declaration of `StripDetectState_t`. -/
def StripDetectState_tag : List (StripDetectState_t × Option Nat) :=
  [ (.EC_STRIP_DETECT_STATE_INVALID, some 0),
    (.EC_STRIP_DETECT_STATE_STRIP_NOT_INSERTED, some 1),
    (.EC_STRIP_DETECT_STATE_STRIP_INSERTED, some 2),
    (.EC_STRIP_DETECT_STATE_COUNT, none) ]

/-- The integer value of a strip-detect enumerator. -/
def StripDetectState_t.val (s : StripDetectState_t) : Nat :=
  enumValue StripDetectState_tag s

/-- The fill detect state (`enum FillDetectState_tag`). -/
inductive FillDetectState_t
  | EC_FILL_DETECT_STATE_INVALID
  | EC_FILL_DETECT_STATE_NO_STRIP
  | EC_FILL_DETECT_STATE_STRIP_NOT_FILLED
  | EC_FILL_DETECT_STATE_STRIP_FILLED
  | EC_FILL_DETECT_STATE_COUNT
  deriving DecidableEq, Repr

/-- The declaration of `FillDetectState_t`. -/
def FillDetectState_tag : List (FillDetectState_t × Option Nat) :=
  [ (.EC_FILL_DETECT_STATE_INVALID, some 0),
    (.EC_FILL_DETECT_STATE_NO_STRIP, some 1),
    (.EC_FILL_DETECT_STATE_STRIP_NOT_FILLED, some 2),
    (.EC_FILL_DETECT_STATE_STRIP_FILLED, some 3),
    (.EC_FILL_DETECT_STATE_COUNT, none) ]

/-- The integer value of a fill-detect enumerator. -/
def FillDetectState_t.val (s : FillDetectState_t) : Nat :=
  enumValue FillDetectState_tag s

/-- The states of an enumeration: the enumerators whose value is below the
value of its `COUNT` enumerator. -/
def enumStates {α : Type} [DecidableEq α] (decl : List (α × Option Nat)) (count : α) : List α :=
  (decl.map Prod.fst).filter (fun a => decide (enumValue decl a < enumValue decl count))

/-! ## Sample-type bitfield constants -/

/-- The C expression `a << b` on `unsigned int` operands of 32 bits. -/
def shlU32 (a b : Nat) : Nat := (a <<< b) % 2 ^ 32

/-- Bit 0, finger stick: `(1u << 0u)`. -/
def EC_SAMPLE_TYPE_FINGER_STICK : Nat := shlU32 1 0

/-- Bit 1, venous blood: `(1u << 1u)`. -/
def EC_SAMPLE_TYPE_VENOUS_BLOOD : Nat := shlU32 1 1

/-- Bit 2, plasma: `(1u << 2u)`. -/
def EC_SAMPLE_TYPE_PLASMA : Nat := shlU32 1 2

/-- Bit 3, serum: `(1u << 3u)`. -/
def EC_SAMPLE_TYPE_SERUM : Nat := shlU32 1 3

/-- Bit 4, control solution: `(1u << 4u)`. -/
def EC_SAMPLE_TYPE_CONTROL : Nat := shlU32 1 4

/-- The bitfield constant that carries the name of a sample type; the
enumerator `SAMPLE_TYPE_COUNT` names no sample type and has none. -/
def sampleTypeBit : ElectrochemicalSampleTypes_t → Option Nat
  | .SAMPLE_TYPE_FINGER_STICK => some EC_SAMPLE_TYPE_FINGER_STICK
  | .SAMPLE_TYPE_VENUOUS_BLOOD => some EC_SAMPLE_TYPE_VENOUS_BLOOD
  | .SAMPLE_TYPE_PLASMA => some EC_SAMPLE_TYPE_PLASMA
  | .SAMPLE_TYPE_SERUM => some EC_SAMPLE_TYPE_SERUM
  | .SAMPLE_TYPE_CONTROL_SOLUTION => some EC_SAMPLE_TYPE_CONTROL
  | .SAMPLE_TYPE_COUNT => none

/-- The five bitfield constants, in the order of their definition. -/
def sampleTypeBits : List Nat :=
  [EC_SAMPLE_TYPE_FINGER_STICK, EC_SAMPLE_TYPE_VENOUS_BLOOD, EC_SAMPLE_TYPE_PLASMA,
    EC_SAMPLE_TYPE_SERUM, EC_SAMPLE_TYPE_CONTROL]

/-- The number of bits set among the 32 bits of an `unsigned int` value. -/
def popCount (n : Nat) : Nat :=
  ((List.range 32).filter (fun i => n.testBit i)).length

/-- The positions of the bits set among the 32 bits of an `unsigned int` value. -/
def bitPositions (n : Nat) : List Nat :=
  (List.range 32).filter (fun i => n.testBit i)

/-! ## Contacts and calibration -/

/-- A voltage. The source type is `float`; a finite `float` is a rational number
and finite floats compare as the rationals they denote. -/
abbrev Volts : Type := ℚ

/-- Definition of a strip contact (`struct ElectrochemicalContact_tag`). The
three arrays carry their declared sizes. -/
structure ElectrochemicalContact_t where
  /-- Each electrode can be mapped to multiple channels. -/
  mapToChannels : List Bool
  /-- Each electrode can only represent a single position in a given channel. -/
  positionInChannel : eElectrochemicalChannelPos
  /-- Electrode is the fill detection pin. -/
  isFillDetectPin : Bool
  /-- Electrode is the strip detection pin. -/
  isStripDetectPin : Bool
  /-- Lowest resistance where no contact is made (no contact if > val). -/
  thresholdVoltsNoContact : List Volts
  /-- Maximum resistance where contact is made (contact if < val). -/
  thresholdVoltsContact : List Volts
  /-- Size of `mapToChannels[EC_STRIP_CHAN_COUNT]`. -/
  mapToChannels_size : mapToChannels.length = EC_STRIP_CHAN_COUNT
  /-- Size of `thresholdVoltsNoContact[SAMPLE_TYPE_COUNT]`. -/
  thresholdVoltsNoContact_size : thresholdVoltsNoContact.length = SAMPLE_TYPE_COUNT
  /-- Size of `thresholdVoltsContact[SAMPLE_TYPE_COUNT]`. -/
  thresholdVoltsContact_size : thresholdVoltsContact.length = SAMPLE_TYPE_COUNT

/-- The calibration settings (`struct ElectrochemicalCalibration_tag`). -/
structure ElectrochemicalCalibration_t where
  /-- The qDAC reference voltage. -/
  qdacReferenceVoltage : Volts
  /-- The sigma delta ADC reference voltage. -/
  sdAdcReferenceVoltage : Volts
  /-- Impedance of the transimpedance amplifier. -/
  potentiostatTransimpedanceOhms : ℚ

/-- The instantaneous reading of a contact at a threshold: contact if the
voltage is below `thresholdVoltsContact` ("Contact if < val"). -/
def readsContact (thresholdVoltsContact v : Volts) : Bool :=
  decide (v < thresholdVoltsContact)

/-- The instantaneous reading of a contact at a threshold: no contact if the
voltage is above `thresholdVoltsNoContact` ("no contact if > val"). -/
def readsNoContact (thresholdVoltsNoContact v : Volts) : Bool :=
  decide (v > thresholdVoltsNoContact)

/-- Modelled from the spec: the failures of the classification layer (section 7),
which the header does not declare. -/
inductive EcError
  | ConfigError
  | CalibrationNotLoaded
  | UnmappedChannel
  | InvalidSampleType
  | AmbiguousSampleType
  deriving DecidableEq, Repr

/-- Modelled from the spec: the Sample Classifier `thresholdsFor` (section 4.5),
which the header does not contain: a direct lookup into the two per-sample-type
threshold arrays of the contact, giving `(noContactV, contactV)`, that fails
with `InvalidSampleType` if `sampleType >= SAMPLE_TYPE_COUNT`. -/
def thresholdsFor (c : ElectrochemicalContact_t) (sampleType : Nat) :
    Except EcError (Volts × Volts) :=
  if h : sampleType < SAMPLE_TYPE_COUNT then
    .ok (c.thresholdVoltsNoContact.get ⟨sampleType, c.thresholdVoltsNoContact_size ▸ h⟩,
      c.thresholdVoltsContact.get ⟨sampleType, c.thresholdVoltsContact_size ▸ h⟩)
  else
    .error .InvalidSampleType

/-! ## Contact map validation -/

/-- Modelled from the spec: the candidate next state of a monitored signal
(section 4.3): contact/filled or no-contact/not-filled. -/
inductive Candidate
  | contact
  | noContact
  deriving DecidableEq, Repr

/-- Modelled from the spec: the instantaneous classification of section 4.3,
which the header does not contain. `th` is the pair `(noContactV, contactV)` of
`thresholdsFor`. Volts below `thresholdVoltsContact` are contact, volts above
`thresholdVoltsNoContact` are no-contact, anything else is indeterminate
(`none`). -/
def classify (th : Volts × Volts) (v : Volts) : Option Candidate :=
  if readsContact th.2 v then some .contact
  else if readsNoContact th.1 v then some .noContact
  else none

/-- Modelled from the spec: the state and counter of one monitored line
(sections 4.3 and 9): the stable state, the previous candidate and the
run-length counter of consecutive samples agreeing with it. -/
structure Debouncer (σ : Type) where
  /-- The committed, observable state. -/
  stable : σ
  /-- The previous candidate, if any sample was classified yet. -/
  candidate : Option Candidate
  /-- The run-length counter. -/
  counter : Nat
  deriving DecidableEq, Repr

/-- Modelled from the spec: one sample fed to the debouncer (section 4.3), which
the header does not contain. An indeterminate sample is ignored. A candidate
that differs from the previous one resets the counter to 1, an agreeing one
increments it. When the counter reaches `ECHEM_NUM_SAMPLES_TO_REGISTER_CHANGE`
the candidate is committed as the stable state (through `commit`, which names
the state of this signal for a candidate) and the counter resets. -/
def debounceStep {σ : Type} (commit : Candidate → σ) (th : Volts × Volts)
    (s : Debouncer σ) (v : Volts) : Debouncer σ :=
  match classify th v with
  | none => s
  | some c =>
    let counter := if s.candidate = some c then s.counter + 1 else 1
    if ECHEM_NUM_SAMPLES_TO_REGISTER_CHANGE ≤ counter then
      { stable := commit c, candidate := some c, counter := 0 }
    else
      { stable := s.stable, candidate := some c, counter := counter }

/-- Modelled from the spec: a stream of samples fed to the debouncer in order. -/
def debounceFeed {σ : Type} (commit : Candidate → σ) (th : Volts × Volts)
    (s : Debouncer σ) (vs : List Volts) : Debouncer σ :=
  vs.foldl (debounceStep commit th) s

/-- Modelled from the spec: the strip-level states of the two candidates
(section 4.3, `NOT_INSERTED` and `INSERTED`). -/
def stripCommit : Candidate → StripDetectState_t
  | .contact => .EC_STRIP_DETECT_STATE_STRIP_INSERTED
  | .noContact => .EC_STRIP_DETECT_STATE_STRIP_NOT_INSERTED

/-- Modelled from the spec: the debouncer of the strip-detect line at the start
of a session: state `INVALID`, no candidate, counter 0. -/
def stripDebouncerInit : Debouncer StripDetectState_t :=
  { stable := .EC_STRIP_DETECT_STATE_INVALID, candidate := none, counter := 0 }

/-! ## Channel resolver -/

/-- Whether a contact is mapped to a channel: `mapToChannels[channel]`. -/
def mappedTo (c : ElectrochemicalContact_t) (channel : eElectrochemicalChannel) : Bool :=
  c.mapToChannels.getD channel.val false

/-- Whether a contact is a fill-detect or strip-detect pin. -/
def isDetectPin (c : ElectrochemicalContact_t) : Bool :=
  c.isFillDetectPin || c.isStripDetectPin

/-- Insertion of an electrode into a list ordered by position value. -/
def insertByPosition (e : Nat × eElectrochemicalChannelPos) :
    List (Nat × eElectrochemicalChannelPos) → List (Nat × eElectrochemicalChannelPos)
  | [] => [e]
  | x :: xs => if e.2.val ≤ x.2.val then e :: x :: xs else x :: insertByPosition e xs

/-- Electrodes ordered by `positionInChannel` ascending. -/
def sortByPosition (l : List (Nat × eElectrochemicalChannelPos)) :
    List (Nat × eElectrochemicalChannelPos) :=
  l.foldr insertByPosition []

/-- Modelled from the spec: the Channel Resolver `activeElectrodesFor`
(section 4.4), which the header does not contain. The contact map is the list of
contacts and a contact id is an index in it. `EC_MODE_MANUAL` returns no
electrode, whatever the map holds (sections 4.4 and 8), so it is decided before
the map is looked at. The other modes fail with `UnmappedChannel` if no contact
maps to the channel; `EC_MODE_FLUID_DETECT` returns the detect pins of the
channel; the potentiostat, self-test and HCT modes return the contacts of the
channel that are not detect pins and have a position other than
`EC_CHAN_POS_NONE`, ordered by position. -/
def activeElectrodesFor (map : List ElectrochemicalContact_t)
    (channel : eElectrochemicalChannel) (mode : eElectrochemicalMode) :
    Except EcError (List (Nat × eElectrochemicalChannelPos)) :=
  match mode with
  | .EC_MODE_MANUAL => .ok []
  | m =>
    let mapped := map.enum.filter (fun e => mappedTo e.2 channel)
    if mapped.isEmpty then .error .UnmappedChannel
    else
      match m with
      | .EC_MODE_FLUID_DETECT =>
        .ok ((mapped.filter (fun e => isDetectPin e.2)).map
          (fun e => (e.1, e.2.positionInChannel)))
      | .EC_MODE_POTENTIOSTAT | .EC_MODE_SELFTEST | .EC_MODE_HCT =>
        .ok (sortByPosition ((mapped.filter (fun e => !isDetectPin e.2 &&
          decide (e.2.positionInChannel ≠ eElectrochemicalChannelPos.EC_CHAN_POS_NONE))).map
          (fun e => (e.1, e.2.positionInChannel))))
      | _ => .ok []

/-! ## Sample contacts -/

/-- The contact of the scenario of section 8: one electrode mapped to
`EC_STRIP_CHAN_1`, flagged as the strip-detect pin, with thresholds
no-contact 1.8 V and contact 0.3 V for every sample type. -/
def stripDetectContact : ElectrochemicalContact_t where
  mapToChannels := [true, false, false, false]
  positionInChannel := .EC_CHAN_POS_NONE
  isFillDetectPin := false
  isStripDetectPin := true
  thresholdVoltsNoContact := List.replicate 5 (9 / 5)
  thresholdVoltsContact := List.replicate 5 (3 / 10)
  mapToChannels_size := by decide
  thresholdVoltsNoContact_size := by decide
  thresholdVoltsContact_size := by decide

/-- Every declared enumerator of the sample types is numbered by the declaration. -/
theorem sampleType_values :
    enumNumber 0 ElectrochemicalSampleTypes_tag =
      [ (.SAMPLE_TYPE_FINGER_STICK, 0), (.SAMPLE_TYPE_VENUOUS_BLOOD, 1),
        (.SAMPLE_TYPE_PLASMA, 2), (.SAMPLE_TYPE_SERUM, 3),
        (.SAMPLE_TYPE_CONTROL_SOLUTION, 4), (.SAMPLE_TYPE_COUNT, 5) ] := by
  decide

/-- A 32-bit value with a single bit set at position `i` has `i` as its only
bit position. -/
theorem bitPositions_shlU32_one (i : Nat) (h : i < 32) :
    bitPositions (shlU32 1 i) = [i] ∧ popCount (shlU32 1 i) = 1 := by
  interval_cases i <;> decide

/-- C2: the sample-type bitfield constants and the sample-type enumeration
correspond bit for index. For every sample type `t` below `SAMPLE_TYPE_COUNT`
the constant of the same name is `1 << t`, has exactly one bit set, at position
`t`; the five constants are pairwise distinct; and bit position to enum value is
the identity pairing of 0..4, a bijection onto the values below
`SAMPLE_TYPE_COUNT`. -/
theorem sampleTypeBit_matches_enum :
    (∀ t : ElectrochemicalSampleTypes_t, t.val < SAMPLE_TYPE_COUNT →
      ∃ b, sampleTypeBit t = some b ∧ b = shlU32 1 t.val ∧ b = 2 ^ t.val ∧
        popCount b = 1 ∧ bitPositions b = [t.val]) ∧
    (∀ t : ElectrochemicalSampleTypes_t, (sampleTypeBit t).isSome ↔ t.val < SAMPLE_TYPE_COUNT) ∧
    sampleTypeBits = [1, 2, 4, 8, 16] ∧
    sampleTypeBits.Nodup ∧
    (enumStates ElectrochemicalSampleTypes_tag .SAMPLE_TYPE_COUNT).map
        (fun t => ((sampleTypeBit t).map bitPositions, t.val)) =
      [(some [0], 0), (some [1], 1), (some [2], 2), (some [3], 3), (some [4], 4)] ∧
    (∀ t u : ElectrochemicalSampleTypes_t, t.val = u.val → t = u) ∧
    (∀ i : Nat, i < SAMPLE_TYPE_COUNT →
      ∃ t : ElectrochemicalSampleTypes_t, t.val = i ∧ sampleTypeBit t = some (shlU32 1 i)) := by
  refine ⟨?_, ?_, by decide, by decide, by decide, ?_, ?_⟩
  · intro t ht
    cases t
    · exact ⟨_, rfl, by decide, by decide, by decide, by decide⟩
    · exact ⟨_, rfl, by decide, by decide, by decide, by decide⟩
    · exact ⟨_, rfl, by decide, by decide, by decide, by decide⟩
    · exact ⟨_, rfl, by decide, by decide, by decide, by decide⟩
    · exact ⟨_, rfl, by decide, by decide, by decide, by decide⟩
    · exact absurd ht (by decide)
  · intro t
    cases t <;> decide
  · intro t u
    cases t <;> cases u <;> decide
  · intro i hi
    have h5 : SAMPLE_TYPE_COUNT = 5 := by decide
    rw [h5] at hi
    interval_cases i
    · exact ⟨.SAMPLE_TYPE_FINGER_STICK, by decide, by decide⟩
    · exact ⟨.SAMPLE_TYPE_VENUOUS_BLOOD, by decide, by decide⟩
    · exact ⟨.SAMPLE_TYPE_PLASMA, by decide, by decide⟩
    · exact ⟨.SAMPLE_TYPE_SERUM, by decide, by decide⟩
    · exact ⟨.SAMPLE_TYPE_CONTROL_SOLUTION, by decide, by decide⟩

/-- C2 at the serum sample type: value 3, constant `1 << 3 = 8`. -/
theorem sampleTypeBit_matches_enum_witness :
    ElectrochemicalSampleTypes_t.SAMPLE_TYPE_SERUM.val < SAMPLE_TYPE_COUNT ∧
    ∃ b, sampleTypeBit .SAMPLE_TYPE_SERUM = some b ∧
      b = shlU32 1 ElectrochemicalSampleTypes_t.SAMPLE_TYPE_SERUM.val ∧
      b = 2 ^ ElectrochemicalSampleTypes_t.SAMPLE_TYPE_SERUM.val ∧
      popCount b = 1 ∧ bitPositions b = [ElectrochemicalSampleTypes_t.SAMPLE_TYPE_SERUM.val] :=
  ⟨by decide, sampleTypeBit_matches_enum.1 .SAMPLE_TYPE_SERUM (by decide)⟩

/-- C5: threshold lookup by sample type is defined exactly for the valid sample
types. `SAMPLE_TYPE_COUNT` is 5, the five named sample types are the values
0..4, both threshold arrays of a contact have `SAMPLE_TYPE_COUNT` entries, so an
index `t` is in bounds of either array if and only if `t < SAMPLE_TYPE_COUNT`;
`thresholdsFor` returns the two entries at such a `t` and fails with
`InvalidSampleType` at any other. -/
theorem thresholdLookup_defined_iff (c : ElectrochemicalContact_t) (t : Nat) :
    SAMPLE_TYPE_COUNT = 5 ∧
    enumStates ElectrochemicalSampleTypes_tag .SAMPLE_TYPE_COUNT =
      [.SAMPLE_TYPE_FINGER_STICK, .SAMPLE_TYPE_VENUOUS_BLOOD, .SAMPLE_TYPE_PLASMA,
        .SAMPLE_TYPE_SERUM, .SAMPLE_TYPE_CONTROL_SOLUTION] ∧
    (enumStates ElectrochemicalSampleTypes_tag .SAMPLE_TYPE_COUNT).map
        ElectrochemicalSampleTypes_t.val = [0, 1, 2, 3, 4] ∧
    c.thresholdVoltsNoContact.length = SAMPLE_TYPE_COUNT ∧
    c.thresholdVoltsContact.length = SAMPLE_TYPE_COUNT ∧
    ((c.thresholdVoltsNoContact[t]?).isSome ↔ t < SAMPLE_TYPE_COUNT) ∧
    ((c.thresholdVoltsContact[t]?).isSome ↔ t < SAMPLE_TYPE_COUNT) ∧
    (t < SAMPLE_TYPE_COUNT ↔ ∃ n k, thresholdsFor c t = .ok (n, k) ∧
      c.thresholdVoltsNoContact[t]? = some n ∧ c.thresholdVoltsContact[t]? = some k) ∧
    (SAMPLE_TYPE_COUNT ≤ t ↔ thresholdsFor c t = .error .InvalidSampleType) := by
  refine ⟨by decide, by decide, by decide, c.thresholdVoltsNoContact_size,
    c.thresholdVoltsContact_size, ?_, ?_, ?_, ?_⟩
  · rw [← c.thresholdVoltsNoContact_size]
    cases h : c.thresholdVoltsNoContact[t]? with
    | none => simpa using List.getElem?_eq_none_iff.mp h
    | some x =>
      have := (List.getElem?_eq_some.mp h).1
      simpa using this
  · rw [← c.thresholdVoltsContact_size]
    cases h : c.thresholdVoltsContact[t]? with
    | none => simpa using List.getElem?_eq_none_iff.mp h
    | some x =>
      have := (List.getElem?_eq_some.mp h).1
      simpa using this
  · constructor
    · intro h
      refine ⟨_, _, by simp only [thresholdsFor, dif_pos h]; rfl, ?_, ?_⟩
      · exact List.getElem?_eq_getElem (c.thresholdVoltsNoContact_size ▸ h)
      · exact List.getElem?_eq_getElem (c.thresholdVoltsContact_size ▸ h)
    · rintro ⟨n, k, hok, -, -⟩
      by_contra h
      simp [thresholdsFor, dif_neg h] at hok
  · constructor
    · intro h
      simp [thresholdsFor, dif_neg (Nat.not_lt.mpr h)]
    · intro h
      by_contra hlt
      simp [thresholdsFor, dif_pos (Nat.lt_of_not_le hlt)] at h

/-- C6: the number of consecutive agreeing samples that registers a change is
the unsigned constant 5: it equals 5, fits the narrowest `unsigned int`, is at
least 1, and is above 1, so a counter that starts at 1 on a new candidate is
below it (one sample commits nothing) and reaches it after four increments. -/
theorem registerChange_is_five :
    ECHEM_NUM_SAMPLES_TO_REGISTER_CHANGE = 5 ∧
    ECHEM_NUM_SAMPLES_TO_REGISTER_CHANGE < 2 ^ UINT_MIN_WIDTH ∧
    1 ≤ ECHEM_NUM_SAMPLES_TO_REGISTER_CHANGE ∧
    1 < ECHEM_NUM_SAMPLES_TO_REGISTER_CHANGE ∧
    1 + 4 = ECHEM_NUM_SAMPLES_TO_REGISTER_CHANGE := by
  decide

/-- C8: `EC_CHAN_POS_NONE` (255) is an out-of-band sentinel. The real positions
A..L are the contiguous values 0..11, `EC_CHAN_POS_COUNT` is 12,
`EC_CHAN_POS_NONE` differs from every real position and is at least
`EC_CHAN_POS_COUNT`; the test `pos < EC_CHAN_POS_COUNT` holds for every real
position and fails for `EC_CHAN_POS_NONE`. -/
theorem chanPosNone_out_of_band :
    realPositions =
      [.EC_CHAN_POS_A, .EC_CHAN_POS_B, .EC_CHAN_POS_C, .EC_CHAN_POS_D, .EC_CHAN_POS_E,
        .EC_CHAN_POS_F, .EC_CHAN_POS_G, .EC_CHAN_POS_H, .EC_CHAN_POS_I, .EC_CHAN_POS_J,
        .EC_CHAN_POS_K, .EC_CHAN_POS_L] ∧
    realPositions.map eElectrochemicalChannelPos.val = List.range 12 ∧
    eElectrochemicalChannelPos.EC_CHAN_POS_COUNT.val = 12 ∧
    eElectrochemicalChannelPos.EC_CHAN_POS_NONE.val = 255 ∧
    (∀ p ∈ realPositions, p ≠ eElectrochemicalChannelPos.EC_CHAN_POS_NONE ∧
      p.val ≠ eElectrochemicalChannelPos.EC_CHAN_POS_NONE.val ∧
      p.val < eElectrochemicalChannelPos.EC_CHAN_POS_COUNT.val) ∧
    eElectrochemicalChannelPos.EC_CHAN_POS_COUNT.val ≤
      eElectrochemicalChannelPos.EC_CHAN_POS_NONE.val ∧
    ¬ (eElectrochemicalChannelPos.EC_CHAN_POS_NONE.val <
      eElectrochemicalChannelPos.EC_CHAN_POS_COUNT.val) ∧
    (∀ p : eElectrochemicalChannelPos,
      p.val < eElectrochemicalChannelPos.EC_CHAN_POS_COUNT.val ↔ p ∈ realPositions) := by
  refine ⟨by decide, by decide, by decide, by decide, by decide, by decide, by decide, ?_⟩
  intro p
  cases p <;> decide

/-- C9 as stated fails: the two detection-state enumerations are not both
three-state, `EC_FILL_DETECT_STATE_COUNT` is 4. -/
theorem detectStates_not_both_three :
    ¬ (StripDetectState_t.EC_STRIP_DETECT_STATE_COUNT.val = 3 ∧
        FillDetectState_t.EC_FILL_DETECT_STATE_COUNT.val = 3) ∧
    FillDetectState_t.EC_FILL_DETECT_STATE_COUNT.val = 4 ∧
    (enumStates FillDetectState_tag .EC_FILL_DETECT_STATE_COUNT).length ≠ 3 := by
  decide

/-- C9, amended: the strip-detect enumeration has exactly three states
(`EC_STRIP_DETECT_STATE_COUNT == 3`): `INVALID`, `STRIP_NOT_INSERTED`,
`STRIP_INSERTED`; the fill-detect enumeration has exactly four
(`EC_FILL_DETECT_STATE_COUNT == 4`): `INVALID`, `NO_STRIP`, `STRIP_NOT_FILLED`,
`STRIP_FILLED`. -/
theorem detectStates_three_and_four :
    StripDetectState_t.EC_STRIP_DETECT_STATE_COUNT.val = 3 ∧
    enumStates StripDetectState_tag .EC_STRIP_DETECT_STATE_COUNT =
      [.EC_STRIP_DETECT_STATE_INVALID, .EC_STRIP_DETECT_STATE_STRIP_NOT_INSERTED,
        .EC_STRIP_DETECT_STATE_STRIP_INSERTED] ∧
    FillDetectState_t.EC_FILL_DETECT_STATE_COUNT.val = 4 ∧
    enumStates FillDetectState_tag .EC_FILL_DETECT_STATE_COUNT =
      [.EC_FILL_DETECT_STATE_INVALID, .EC_FILL_DETECT_STATE_NO_STRIP,
        .EC_FILL_DETECT_STATE_STRIP_NOT_FILLED, .EC_FILL_DETECT_STATE_STRIP_FILLED] := by
  decide

/-- C10: in both detection-state enumerations `INVALID` has the value 0 and
every other state has a non-zero value below the enumeration's `COUNT`, distinct
from the value of every other state; so a zero-initialised detection state is
`INVALID` and no decided state has the value 0. -/
theorem detectState_invalid_is_zero :
    StripDetectState_t.EC_STRIP_DETECT_STATE_INVALID.val = 0 ∧
    FillDetectState_t.EC_FILL_DETECT_STATE_INVALID.val = 0 ∧
    (∀ s ∈ enumStates StripDetectState_tag .EC_STRIP_DETECT_STATE_COUNT,
      s ≠ .EC_STRIP_DETECT_STATE_INVALID →
        s.val ≠ 0 ∧ s.val < StripDetectState_t.EC_STRIP_DETECT_STATE_COUNT.val) ∧
    (∀ s ∈ enumStates FillDetectState_tag .EC_FILL_DETECT_STATE_COUNT,
      s ≠ .EC_FILL_DETECT_STATE_INVALID →
        s.val ≠ 0 ∧ s.val < FillDetectState_t.EC_FILL_DETECT_STATE_COUNT.val) ∧
    ((enumStates StripDetectState_tag .EC_STRIP_DETECT_STATE_COUNT).map
      StripDetectState_t.val).Nodup ∧
    ((enumStates FillDetectState_tag .EC_FILL_DETECT_STATE_COUNT).map
      FillDetectState_t.val).Nodup ∧
    (∀ s : StripDetectState_t, s.val = 0 ↔ s = .EC_STRIP_DETECT_STATE_INVALID) ∧
    (∀ s : FillDetectState_t, s.val = 0 ↔ s = .EC_FILL_DETECT_STATE_INVALID) := by
  refine ⟨by decide, by decide, by decide, by decide, by decide, by decide, ?_, ?_⟩
  · intro s
    cases s <;> decide
  · intro s
    cases s <;> decide

/-! ## Theorems: contacts -/

/-- When the contact threshold is above the no-contact threshold, the two
regions overlap: the midpoint reads both contact and no-contact. -/
theorem swappedThresholds_regions_overlap (n k : Volts) (h : n < k) :
    readsContact k ((n + k) / 2) = true ∧ readsNoContact n ((n + k) / 2) = true := by
  simp only [readsContact, readsNoContact, decide_eq_true_eq]
  constructor <;> linarith

/-! ## Theorems: channel resolver -/

/-- C7: for every contact map and every channel, resolving the active
electrodes in mode `EC_MODE_MANUAL` yields the empty list. -/
theorem manualMode_no_active_electrodes (map : List ElectrochemicalContact_t)
    (channel : eElectrochemicalChannel) :
    activeElectrodesFor map channel .EC_MODE_MANUAL = .ok [] := by
  simp [activeElectrodesFor]

/-! ## Theorems: detection debouncer -/

/-- A voltage below the contact threshold is classified as contact. -/
theorem classify_of_lt_contact (th : Volts × Volts) (v : Volts) (h : v < th.2) :
    classify th v = some .contact := by
  simp [classify, readsContact, h]

/-- A sample whose candidate differs from the previous one restarts the counter
at 1 and commits nothing. -/
theorem debounceStep_new_candidate {σ : Type} (commit : Candidate → σ) (th : Volts × Volts)
    (s : Debouncer σ) (v : Volts) (c : Candidate) (hc : classify th v = some c)
    (hnew : s.candidate ≠ some c) :
    debounceStep commit th s v = { stable := s.stable, candidate := some c, counter := 1 } := by
  simp [debounceStep, hc, hnew, ECHEM_NUM_SAMPLES_TO_REGISTER_CHANGE]

/-- A contact sample that leaves the counter below the register count only
advances the counter. -/
theorem debounceStep_contact_below {σ : Type} (commit : Candidate → σ) (th : Volts × Volts)
    (s : Debouncer σ) (v : Volts) (hv : v < th.2)
    (hc : s.candidate = some .contact ∨ s.counter = 0)
    (hlt : s.counter + 1 < ECHEM_NUM_SAMPLES_TO_REGISTER_CHANGE) :
    debounceStep commit th s v =
      { stable := s.stable, candidate := some .contact, counter := s.counter + 1 } := by
  have hcount : (if s.candidate = some Candidate.contact then s.counter + 1 else 1) =
      s.counter + 1 := by
    rcases hc with hc | hc
    · simp [hc]
    · simp [hc]
  simp only [debounceStep, classify_of_lt_contact th v hv, hcount]
  rw [if_neg (Nat.not_le.mpr hlt)]

/-- A contact sample that brings the counter to the register count commits the
contact state and resets the counter. -/
theorem debounceStep_contact_reach {σ : Type} (commit : Candidate → σ) (th : Volts × Volts)
    (s : Debouncer σ) (v : Volts) (hv : v < th.2)
    (hc : s.candidate = some .contact ∨ s.counter = 0)
    (heq : s.counter + 1 = ECHEM_NUM_SAMPLES_TO_REGISTER_CHANGE) :
    debounceStep commit th s v =
      { stable := commit .contact, candidate := some .contact, counter := 0 } := by
  have hcount : (if s.candidate = some Candidate.contact then s.counter + 1 else 1) =
      s.counter + 1 := by
    rcases hc with hc | hc
    · simp [hc]
    · simp [hc]
  simp only [debounceStep, classify_of_lt_contact th v hv, hcount]
  rw [if_pos (Nat.le_of_eq heq.symm)]

/-- A run of contact samples too short to reach the register count leaves the
stable state alone and is counted sample by sample. -/
theorem debounceFeed_contact_below {σ : Type} (commit : Candidate → σ) (th : Volts × Volts)
    (vs : List Volts) :
    ∀ s : Debouncer σ, (s.candidate = some .contact ∨ s.counter = 0) →
      s.counter + vs.length < ECHEM_NUM_SAMPLES_TO_REGISTER_CHANGE →
      (∀ v ∈ vs, v < th.2) →
      (debounceFeed commit th s vs).stable = s.stable ∧
      (debounceFeed commit th s vs).counter = s.counter + vs.length := by
  induction vs with
  | nil => intro s _ _ _; simp [debounceFeed]
  | cons v rest ih =>
    intro s hc hlen hall
    have hv : v < th.2 := hall v (List.mem_cons_self v rest)
    have hlen1 : s.counter + 1 + rest.length < ECHEM_NUM_SAMPLES_TO_REGISTER_CHANGE := by
      simp only [List.length_cons] at hlen
      omega
    have hstep := debounceStep_contact_below commit th s v hv hc (by omega)
    have hrest := ih (debounceStep commit th s v) (by rw [hstep]; exact Or.inl rfl)
      (by rw [hstep]; exact hlen1) (fun w hw => hall w (List.mem_cons_of_mem v hw))
    have hfeed : debounceFeed commit th s (v :: rest) =
        debounceFeed commit th (debounceStep commit th s v) rest := rfl
    rw [hfeed, hrest.1, hrest.2, hstep]
    simp only [List.length_cons]
    exact ⟨trivial, by omega⟩

/-- A run of contact samples that brings the counter exactly to the register
count commits the contact state on its last sample and resets the counter. -/
theorem debounceFeed_contact_reach {σ : Type} (commit : Candidate → σ) (th : Volts × Volts)
    (vs : List Volts) :
    ∀ s : Debouncer σ, (s.candidate = some .contact ∨ s.counter = 0) →
      vs ≠ [] →
      s.counter + vs.length = ECHEM_NUM_SAMPLES_TO_REGISTER_CHANGE →
      (∀ v ∈ vs, v < th.2) →
      debounceFeed commit th s vs =
        { stable := commit .contact, candidate := some .contact, counter := 0 } := by
  induction vs with
  | nil => intro s _ hne _ _; exact absurd rfl hne
  | cons v rest ih =>
    intro s hc _ hlen hall
    have hv : v < th.2 := hall v (List.mem_cons_self v rest)
    have hfeed : debounceFeed commit th s (v :: rest) =
        debounceFeed commit th (debounceStep commit th s v) rest := rfl
    simp only [List.length_cons] at hlen
    cases rest with
    | nil =>
      rw [hfeed, debounceStep_contact_reach commit th s v hv hc (by simpa using hlen)]
      rfl
    | cons w rest2 =>
      have hstep := debounceStep_contact_below commit th s v hv hc
        (by simp only [List.length_cons] at hlen; omega)
      rw [hfeed]
      exact ih (debounceStep commit th s v) (by rw [hstep]; exact Or.inl rfl)
        (List.cons_ne_nil w rest2) (by rw [hstep]; simp only [List.length_cons] at hlen ⊢; omega)
        (fun u hu => hall u (List.mem_cons_of_mem v hu))

/-- C1: the debouncer commit rule. For every monitored signal whose stable state
is the no-contact state, with a fresh run-length counter, feeding `n`
consecutive contact samples (volts below `thresholdVoltsContact`) leaves the
stable state unchanged for every `n < ECHEM_NUM_SAMPLES_TO_REGISTER_CHANGE`, and
the stable state becomes the contact state on the
`ECHEM_NUM_SAMPLES_TO_REGISTER_CHANGE`-th such sample, where the counter
resets. -/
theorem debounce_contact_commit_rule {σ : Type} (commit : Candidate → σ) (th : Volts × Volts)
    (s : Debouncer σ) (vs : List Volts)
    (hstable : s.stable = commit .noContact) (hfresh : s.counter = 0)
    (hcontact : ∀ v ∈ vs, v < th.2) :
    (vs.length < ECHEM_NUM_SAMPLES_TO_REGISTER_CHANGE →
      (debounceFeed commit th s vs).stable = commit .noContact ∧
      (debounceFeed commit th s vs).counter = vs.length) ∧
    (vs.length = ECHEM_NUM_SAMPLES_TO_REGISTER_CHANGE →
      (debounceFeed commit th s vs).stable = commit .contact ∧
      (debounceFeed commit th s vs).counter = 0) := by
  constructor
  · intro hlen
    have h := debounceFeed_contact_below commit th vs s (Or.inr hfresh)
      (by rw [hfresh]; omega) hcontact
    rw [h.1, h.2, hfresh, hstable]
    exact ⟨rfl, by omega⟩
  · intro hlen
    have hne : vs ≠ [] := by
      intro h
      rw [h] at hlen
      exact absurd hlen (by decide)
    rw [debounceFeed_contact_reach commit th vs s (Or.inr hfresh) hne
      (by rw [hfresh]; omega) hcontact]
    exact ⟨rfl, rfl⟩

/-- The scenario of section 8, first half: five samples of 2.0 V from the
initial state commit `STRIP_NOT_INSERTED` and reset the counter. -/
theorem stripScenario_not_inserted :
    debounceFeed stripCommit (9 / 5, 3 / 10) stripDebouncerInit [2, 2, 2, 2, 2] =
      { stable := .EC_STRIP_DETECT_STATE_STRIP_NOT_INSERTED, candidate := some .noContact,
        counter := 0 } := by
  norm_num [debounceFeed, debounceStep, classify, readsContact, readsNoContact,
    stripDebouncerInit, stripCommit, ECHEM_NUM_SAMPLES_TO_REGISTER_CHANGE]

/-- C1 on the scenario of section 8: thresholds no-contact 1.8 V and contact
0.3 V of the strip-detect contact, samples of 0.2 V after five samples of 2.0 V.
Four samples leave `STRIP_NOT_INSERTED`, the fifth commits `STRIP_INSERTED`. -/
theorem debounce_contact_commit_rule_witness :
    thresholdsFor stripDetectContact ElectrochemicalSampleTypes_t.SAMPLE_TYPE_FINGER_STICK.val =
      .ok (9 / 5, 3 / 10) ∧
    debounceFeed stripCommit (9 / 5, 3 / 10) stripDebouncerInit [2, 2, 2, 2, 2] =
      { stable := stripCommit .noContact, candidate := some .noContact, counter := 0 } ∧
    (∀ v ∈ [(1 / 5 : Volts), 1 / 5, 1 / 5, 1 / 5, 1 / 5], v < (3 / 10 : Volts)) ∧
    ((debounceFeed stripCommit (9 / 5, 3 / 10)
        (debounceFeed stripCommit (9 / 5, 3 / 10) stripDebouncerInit [2, 2, 2, 2, 2])
        [1 / 5, 1 / 5, 1 / 5, 1 / 5]).stable = .EC_STRIP_DETECT_STATE_STRIP_NOT_INSERTED ∧
      (debounceFeed stripCommit (9 / 5, 3 / 10)
        (debounceFeed stripCommit (9 / 5, 3 / 10) stripDebouncerInit [2, 2, 2, 2, 2])
        [1 / 5, 1 / 5, 1 / 5, 1 / 5]).counter = 4) ∧
    ((debounceFeed stripCommit (9 / 5, 3 / 10)
        (debounceFeed stripCommit (9 / 5, 3 / 10) stripDebouncerInit [2, 2, 2, 2, 2])
        [1 / 5, 1 / 5, 1 / 5, 1 / 5, 1 / 5]).stable = .EC_STRIP_DETECT_STATE_STRIP_INSERTED ∧
      (debounceFeed stripCommit (9 / 5, 3 / 10)
        (debounceFeed stripCommit (9 / 5, 3 / 10) stripDebouncerInit [2, 2, 2, 2, 2])
        [1 / 5, 1 / 5, 1 / 5, 1 / 5, 1 / 5]).counter = 0) :=
  ⟨rfl, stripScenario_not_inserted,
    (by intro v hv; simp only [List.mem_cons, List.mem_singleton, List.not_mem_nil,
          or_false, or_self] at hv; rw [hv]; norm_num),
    (debounce_contact_commit_rule stripCommit (9 / 5, 3 / 10) _ [1 / 5, 1 / 5, 1 / 5, 1 / 5]
      (by rw [stripScenario_not_inserted]; rfl) (by rw [stripScenario_not_inserted])
      (by intro v hv; simp only [List.mem_cons, List.mem_singleton, List.not_mem_nil,
            or_false, or_self] at hv; rw [hv]; norm_num)).1 (by decide),
    (debounce_contact_commit_rule stripCommit (9 / 5, 3 / 10) _
      [1 / 5, 1 / 5, 1 / 5, 1 / 5, 1 / 5]
      (by rw [stripScenario_not_inserted]; rfl) (by rw [stripScenario_not_inserted])
      (by intro v hv; simp only [List.mem_cons, List.mem_singleton, List.not_mem_nil,
            or_false, or_self] at hv; rw [hv]; norm_num)).2 (by decide)⟩

end Lumira
